import Mathlib

/-!
Verification of the task-manager backend (FastAPI + MongoDB + LLM interpreter).

The development shallowly embeds the two source files:
  * `backend/main.py` — the command interpreter `call_llm_for_command`
    (lines 99-295), the dispatcher inside `process_command` (lines 305-376)
    and the Pydantic models (`LLMCommand`, `Task*`);
  * `backend/db.py`   — `MongoDBManager` with `add_task`, `get_all_tasks`,
    `update_task`, `delete_task`.

Python/JSON values are modelled by the inductive `Json`; Python exceptions are
modelled as explicit outcome constructors (every place where the code catches
an exception and returns a fallback, the model returns that fallback
directly).  The external LLM channel (HTTP transport + `response.json()`) and
the stdlib `json.loads` are modelled as components of an environment record,
universally quantified in the theorems.  Machine-level concerns (ObjectId
byte layout, datetime internals) are modelled by their observable string
forms, which is all the code uses.
-/

namespace TaskManager

/-- A JSON value as produced by `json.loads` / `response.json()`.
Numbers are modelled as integers (no claim depends on float behaviour);
objects are association lists in insertion order. -/
inductive Json where
  | null : Json
  | bool (b : Bool) : Json
  | num (n : Int) : Json
  | str (s : String) : Json
  | arr (elems : List Json) : Json
  | obj (fields : List (String × Json)) : Json

/-- Python truthiness (`if x:`) restricted to the JSON value domain:
`None`, `False`, `0`, `""`, `[]` and the empty dict are falsy. -/
def pyFalsy : Json → Bool
  | .null => true
  | .bool b => !b
  | .num n => n == 0
  | .str s => s == ""
  | .arr xs => xs.isEmpty
  | .obj kvs => kvs.isEmpty

/-- Lookup in a Python dict built by inserting the pairs in order:
the LAST binding of a key wins (mirrors both `json.loads` objects and the
`clean_parsed_json[cleaned_key] = v` comprehension in main.py line 270). -/
def lookupLast : List (String × Json) → String → Option Json
  | [], _ => none
  | (k', v) :: rest, k =>
    match lookupLast rest k with
    | some r => some r
    | none => if k' = k then some v else none

/-- Python `str.strip` whitespace class (ASCII part): space, TAB, LF, VT, FF, CR. -/
def pySpace (c : Char) : Bool :=
  c = ' ' || c = Char.ofNat 9 || c = Char.ofNat 10 || c = Char.ofNat 11 ||
  c = Char.ofNat 12 || c = Char.ofNat 13

/-- `str.strip()` on a character list: drop whitespace at both ends. -/
def pyStrip (l : List Char) : List Char :=
  ((l.dropWhile pySpace).reverse.dropWhile pySpace).reverse

/-- The opening marker of the regex `r'³³³json\s*(.*?)\s*³³³'` of main.py
line 253 (here ³ stands for a backtick). -/
def fenceOpen : List Char := "```json".toList

/-- The closing marker of the same regex. -/
def fenceClose : List Char := "```".toList

/-- Index of the first occurrence of `pat` as a contiguous sublist of `s`
(`None` when there is none) — the search part of `re.search`. -/
def findSub (pat : List Char) : List Char → Option Nat
  | [] => if pat.isPrefixOf ([] : List Char) then some 0 else none
  | c :: rest =>
    if pat.isPrefixOf (c :: rest) then some 0
    else (findSub pat rest).map (· + 1)

/-- `occursAt pat s i` holds when `pat` occurs in `s` starting at index `i`. -/
def occursAt (pat s : List Char) (i : Nat) : Bool :=
  pat.isPrefixOf (s.drop i)

/-- main.py lines 252-260: extract the JSON body from the raw model text.
`re.search(r'³³³json\s*(.*?)\s*³³³', raw, re.DOTALL)` (³ = backtick) matches
from the first occurrence of the opening marker up to the first occurrence of
the closing marker after it; the group is then `.strip()`-ed (the `\s*`
borders only remove whitespace that `.strip()` removes anyway).  Without a
match the whole text is `.strip()`-ed. -/
def extractJsonBodyL (raw : List Char) : List Char :=
  match findSub fenceOpen raw with
  | none => pyStrip raw
  | some i =>
    match findSub fenceClose (raw.drop (i + fenceOpen.length)) with
    | none => pyStrip raw
    | some k => pyStrip ((raw.drop (i + fenceOpen.length)).take k)

/-- String-level wrapper of `extractJsonBodyL`. -/
def extractJsonBody (raw : String) : String :=
  String.mk (extractJsonBodyL raw.toList)

/-! ## The interpreter `call_llm_for_command` (main.py lines 99-295) -/

/-- The `action` Literal of the Pydantic model `LLMCommand` (main.py line 56). -/
inductive ActionType where
  | create | read | update | delete | unknown
deriving DecidableEq, Repr

/-- The status Literal used by `TaskBase`/`LLMCommand` (main.py lines 24, 60). -/
inductive TaskStatus where
  | pending | completed | in_progress | cancelled
deriving DecidableEq, Repr

/-- The string form of a `TaskStatus` literal. -/
def statusStr : TaskStatus → String
  | .pending => "pending"
  | .completed => "completed"
  | .in_progress => "in_progress"
  | .cancelled => "cancelled"

/-- The Pydantic model `LLMCommand` (main.py lines 51-61): the typed command
produced by the interpreter. -/
structure LLMCommand where
  action : ActionType
  task_id : Option String := none
  description : Option String := none
  start_date : Option String := none
  status : Option TaskStatus := none
  message : Option String := none
deriving DecidableEq, Repr

/-- Shorthand for the fallback commands the interpreter returns on every
failure path: `LLMCommand(action="unknown", message=...)`. -/
def mkUnknown (msg : String) : LLMCommand :=
  { action := .unknown, message := some msg }

/-- Outcome of the HTTP exchange with the Gemini endpoint, as observed by the
code: `raise_for_status()` raising `httpx.HTTPStatusError` (main.py line 290),
any other exception out of the transport or `response.json()` (line 293), or a
decoded response body. -/
inductive ChannelOutcome where
  | httpError (statusCode : Nat)
  | otherError
  | success (body : Json)

/-- Environment of one interpreter call: the `GEMINI_API_KEY` value read from
the environment (`""` when unset, main.py line 225), the behaviour of the LLM
channel for the request, and the behaviour of the stdlib `json.loads`
(`none` models `json.JSONDecodeError`).  The user text influences the result
only through the channel behaviour, which the theorems quantify over. -/
structure InterpEnv where
  apiKey : String
  channel : ChannelOutcome
  loads : String → Option Json

/-- Result of locating the generated text in the response envelope
(main.py lines 244-249): `raised` when the attribute/index/key accesses raise
(caught by the outermost handler), `shapeMissing` when the guard condition is
cleanly false (the `else` of line 287), `text` on success. -/
inductive RawTextResult where
  | raised
  | shapeMissing
  | text (s : String)
deriving DecidableEq, Repr

/-- main.py lines 244-250 applied to a candidate element:
`result["candidates"][0].get("content")`, its truthiness test,
`["content"].get("parts")`, its truthiness and length tests, `parts[0]["text"]`.
Non-dict receivers of `.get`/`["text"]`, dicts indexed by `[0]`, unsized
truthy values given to `len`, and non-string `text` values (fed to
`re.search`) all raise, which the outer handler catches. -/
def rawFromCandidate (c0 : Json) : RawTextResult :=
  match c0 with
  | .obj f2 =>
    match lookupLast f2 "content" with
    | none => .shapeMissing
    | some content =>
      if pyFalsy content then .shapeMissing
      else
        match content with
        | .obj f3 =>
          match lookupLast f3 "parts" with
          | none => .shapeMissing
          | some parts =>
            if pyFalsy parts then .shapeMissing
            else
              match parts with
              | .arr (p0 :: _) =>
                (match p0 with
                 | .obj f4 =>
                   match lookupLast f4 "text" with
                   | some (.str s) => .text s
                   | _ => .raised
                 | _ => .raised)
              | _ => .raised
        | _ => .raised
  | _ => .raised

/-- main.py lines 244-250 applied to the whole response body:
`result.get("candidates")` (raises when the body is not a dict), its
truthiness/length tests, then `result["candidates"][0]`. -/
def extractRawText (body : Json) : RawTextResult :=
  match body with
  | .obj fields =>
    match lookupLast fields "candidates" with
    | none => .shapeMissing
    | some cands =>
      if pyFalsy cands then .shapeMissing
      else
        match cands with
        | .arr (c0 :: _) => rawFromCandidate c0
        | _ => .raised
  | _ => .raised

/-- Python `\w` (word character) test, ASCII range: letters, digits,
underscore. -/
def pyWordChar (c : Char) : Bool :=
  c.isAlphanum || c = '_'

/-- main.py line 268: `re.sub(r'[^\w]', '', k).strip()` — every non-word
character is removed (which also removes all whitespace, so the trailing
`.strip()` is a no-op). -/
def cleanKey (k : String) : String :=
  String.mk (k.toList.filter pyWordChar)

/-- main.py lines 266-270: the dict comprehension that rebuilds the parsed
object under cleaned keys (later duplicates overwrite earlier ones, which
`lookupLast` accounts for). -/
def cleanKeys (kvs : List (String × Json)) : List (String × Json) :=
  kvs.map (fun kv => (cleanKey kv.1, kv.2))

mutual

/-- Python `repr` restricted to the JSON value domain (string quoting without
escape handling, which no claim exercises). -/
def pyRepr : Json → String
  | .null => "None"
  | .bool true => "True"
  | .bool false => "False"
  | .num n => toString n
  | .str s => "'" ++ s ++ "'"
  | .arr xs => "[" ++ pyReprSep xs ++ "]"
  | .obj kvs => "\x7b" ++ pyReprFields kvs ++ "\x7d"

/-- Comma-separated `repr` of list elements. -/
def pyReprSep : List Json → String
  | [] => ""
  | [x] => pyRepr x
  | x :: y :: rest => pyRepr x ++ ", " ++ pyReprSep (y :: rest)

/-- Comma-separated `repr` of dict items. -/
def pyReprFields : List (String × Json) → String
  | [] => ""
  | [(k, v)] => "'" ++ k ++ "': " ++ pyRepr v
  | (k, v) :: p :: rest => "'" ++ k ++ "': " ++ pyRepr v ++ ", " ++ pyReprFields (p :: rest)

end

/-- Python `str(x)` (as used by an f-string) restricted to the JSON value
domain: identity on strings, `repr` otherwise. -/
def pyStr : Json → String
  | .str s => s
  | j => pyRepr j

/-- The five permitted action strings (main.py line 279). -/
def validActions : List String := ["create", "read", "update", "delete", "unknown"]

/-- main.py line 279: `action_value not in ["create", ...]` — Python `in`
compares by `==`, so only equal strings match. -/
def isValidActionJson : Json → Bool
  | .str s => validActions.contains s
  | _ => false

/-- Pydantic v1 validation of an optional `str` field: `None` accepted,
strings accepted, numbers and booleans coerced with `str()`, containers
rejected (`ValidationError`). -/
def decodeOptStr : Option Json → Except Unit (Option String)
  | none => .ok none
  | some .null => .ok none
  | some (.str s) => .ok (some s)
  | some (.num n) => .ok (some (toString n))
  | some (.bool true) => .ok (some "True")
  | some (.bool false) => .ok (some "False")
  | some _ => .error ()

/-- Pydantic v1 validation of the optional status Literal: the value must
equal one of the four strings. -/
def decodeOptStatus : Option Json → Except Unit (Option TaskStatus)
  | none => .ok none
  | some .null => .ok none
  | some (.str "pending") => .ok (some .pending)
  | some (.str "completed") => .ok (some .completed)
  | some (.str "in_progress") => .ok (some .in_progress)
  | some (.str "cancelled") => .ok (some .cancelled)
  | some _ => .error ()

/-- Pydantic v1 validation of the required `action` Literal. -/
def decodeAction : Option Json → Except Unit ActionType
  | some (.str "create") => .ok .create
  | some (.str "read") => .ok .read
  | some (.str "update") => .ok .update
  | some (.str "delete") => .ok .delete
  | some (.str "unknown") => .ok .unknown
  | _ => .error ()

/-- main.py line 283: `LLMCommand(**clean_parsed_json)` — Pydantic builds the
model from the cleaned dict, ignoring extra keys; a `ValidationError` is
caught by the outermost handler. -/
def buildCommand (cleaned : List (String × Json)) : Except Unit LLMCommand := do
  let act ← decodeAction (lookupLast cleaned "action")
  let tid ← decodeOptStr (lookupLast cleaned "task_id")
  let desc ← decodeOptStr (lookupLast cleaned "description")
  let sd ← decodeOptStr (lookupLast cleaned "start_date")
  let st ← decodeOptStatus (lookupLast cleaned "status")
  let msg ← decodeOptStr (lookupLast cleaned "message")
  .ok { action := act, task_id := tid, description := desc,
        start_date := sd, status := st, message := msg }

/-- main.py lines 262-286 from a successfully parsed JSON value onwards:
key cleaning, the `action` presence check (a dict `.get` returns `None` both
for a missing key and for a stored `None`), the action whitelist check, and
Pydantic construction.  `parsed_json.items()` on a non-dict raises
(outermost handler). -/
def handleParsed (parsed : Json) : LLMCommand :=
  match parsed with
  | .obj kvs =>
    let cleaned := cleanKeys kvs
    match lookupLast cleaned "action" with
    | none => mkUnknown "No pude determinar la acción del LLM. Por favor, sé más específico."
    | some .null => mkUnknown "No pude determinar la acción del LLM. Por favor, sé más específico."
    | some av =>
      if isValidActionJson av then
        match buildCommand cleaned with
        | .ok cmd => cmd
        | .error _ => mkUnknown "Ocurrió un error inesperado al procesar tu comando."
      else
        mkUnknown ("La acción '" ++ pyStr av ++ "' no es válida. Por favor, sé más específico.")
  | _ => mkUnknown "Ocurrió un error inesperado al procesar tu comando."

/-- main.py lines 252-286 from the raw generated text onwards: fence
extraction, `json.loads` (a `JSONDecodeError` yields the invalid-format
message), then `handleParsed`. -/
def handleRawText (loads : String → Option Json) (raw : String) : LLMCommand :=
  match loads (extractJsonBody raw) with
  | none => mkUnknown "El LLM devolvió un formato JSON inválido. Inténtalo de nuevo."
  | some parsed => handleParsed parsed

/-- main.py lines 99-295, `call_llm_for_command`: the full interpreter.
The API-key guard (lines 225-228) runs before any network interaction; the
`httpx.HTTPStatusError` handler (line 290) and the catch-all handler
(line 293) wrap the rest. -/
def call_llm_for_command (env : InterpEnv) : LLMCommand :=
  if env.apiKey = "" then
    mkUnknown "Error de configuración: Clave API no encontrada."
  else
    match env.channel with
    | .httpError code =>
      mkUnknown ("Error del servidor al procesar tu comando: " ++ toString code ++ ".")
    | .otherError => mkUnknown "Ocurrió un error inesperado al procesar tu comando."
    | .success body =>
      match extractRawText body with
      | .raised => mkUnknown "Ocurrió un error inesperado al procesar tu comando."
      | .shapeMissing => mkUnknown "No pude interpretar tu comando. Inténtalo de nuevo."
      | .text raw => handleRawText env.loads raw

/-! ## The task store `MongoDBManager` (db.py) -/

/-- A stored `created_at` value: either a datetime (observed through its
`.isoformat()` string, the only use the code makes of it) or an
already-textual value. -/
inductive StoredTime where
  | dt (isoRepr : String)
  | txt (s : String)
deriving DecidableEq, Repr

/-- One document of the `tasks` collection.  `id` models `str(ObjectId)`;
`status` is whatever string the writer supplied, or `none` for a stored
null/missing field (a dict `.get` does not distinguish them); the documents
are schemaless, and these are the fields the code reads and writes. -/
structure StoredTask where
  id : String
  description : String
  start_date : Option String := none
  status : Option String := none
  created_at : StoredTime
deriving DecidableEq, Repr

/-- The mutable state behind a `MongoDBManager`: whether `self.db` is set
(db.py line 38 checks `self.db is None`), the `tasks` collection in natural
order, and the id-generation counter (models ObjectId generation). -/
structure TaskStore where
  conn : Bool
  tasks : List StoredTask
  nextId : Nat
deriving DecidableEq, Repr

/-- The four valid status strings (db.py lines 68, 104). -/
def validStatuses : List String := ["pending", "completed", "in_progress", "cancelled"]

/-- Python truthiness of an optional string argument (`if start_date:`,
`if description:`, ...): present and non-empty. -/
def pyTruthyStr : Option String → Option String
  | some s => if s = "" then none else some s
  | none => none

/-- db.py lines 35-55, `add_task`.  The Python signature defaults `status` to
`"pending"`, but a caller passing `status=None` explicitly (as the dispatcher
does) overrides that default and `None` is stored.  `now` models
`datetime.now()`; `insertOk = false` models `insert_one` raising, which the
`except` turns into `None`. -/
def add_task (st : TaskStore) (description : String) (start_date : Option String)
    (status : Option String) (now : String) (insertOk : Bool) :
    Option String × TaskStore :=
  match st.conn with
  | false => (none, st)
  | true =>
    let task : StoredTask :=
      { id := toString st.nextId, description := description,
        start_date := pyTruthyStr start_date, status := status,
        created_at := .dt now }
    if insertOk then
      (some (toString st.nextId),
       { st with tasks := st.tasks ++ [task], nextId := st.nextId + 1 })
    else (none, st)

/-- The per-document view built by `get_all_tasks` (db.py lines 70-84):
`_id` stringified, a missing or invalid `status` replaced by `"pending"` in
the returned dict, `created_at` rendered with `.isoformat()` when it is a
datetime. -/
structure ViewTask where
  id : String
  description : String
  start_date : Option String := none
  status : String
  created_at : String
deriving DecidableEq, Repr

/-- db.py lines 70-84: the transformation applied to each fetched document.
Only the cursor's copy of the document is rewritten, never the stored one. -/
def viewOf (t : StoredTask) : ViewTask :=
  { id := t.id, description := t.description, start_date := t.start_date,
    status :=
      match t.status with
      | some s => if validStatuses.contains s then s else "pending"
      | none => "pending",
    created_at :=
      match t.created_at with
      | .dt iso => iso
      | .txt s => s }

/-- db.py lines 57-88, `get_all_tasks`.  `readOk = false` models the
`except` path (any error while iterating returns `[]`).  The operation
performs no write: the resulting store is returned unchanged. -/
def get_all_tasks (st : TaskStore) (readOk : Bool) : List ViewTask × TaskStore :=
  match st.conn with
  | false => ([], st)
  | true =>
    if readOk then (st.tasks.map viewOf, st) else ([], st)

/-- db.py lines 90-122, `update_task`, after the status validation: the
`if not update_fields` guard, the `try`ed `update_one` (`opOk = false` models
`ObjectId(task_id)` or `update_one` raising), and
`modified_count > 0` — true only when a matching document exists and at
least one `$set` field actually changes its value. -/
def updateApply (st : TaskStore) (task_id : String)
    (descF sdF stF : Option String) (opOk : Bool) : Bool × TaskStore :=
  if descF.isNone && sdF.isNone && stF.isNone then (false, st)
  else if !opOk then (false, st)
  else
    match st.tasks.find? (fun t => t.id = task_id) with
    | none => (false, st)
    | some t =>
      let t' : StoredTask :=
        { t with
          description := descF.getD t.description,
          start_date := match sdF with | some v => some v | none => t.start_date,
          status := match stF with | some v => some v | none => t.status }
      (decide (t' ≠ t),
       { st with tasks := st.tasks.map (fun u => if u.id = task_id then t' else u) })

/-- db.py lines 90-122, `update_task`: the no-connection guard, the
truthiness tests building `update_fields`, and the early `return False` when
a truthy `status` is not one of the four valid values (db.py lines 102-109)
— that return precedes every database access, so nothing is applied. -/
def update_task (st : TaskStore) (task_id : String)
    (description start_date status : Option String) (opOk : Bool) :
    Bool × TaskStore :=
  match st.conn with
  | false => (false, st)
  | true =>
    let descF := pyTruthyStr description
    let sdF := pyTruthyStr start_date
    match pyTruthyStr status with
    | some s =>
      if validStatuses.contains s then updateApply st task_id descF sdF (some s) opOk
      else (false, st)
    | none => updateApply st task_id descF sdF none opOk

/-- db.py lines 124-135, `delete_task`: no-connection guard, `try`ed
`delete_one` (first matching document removed), `deleted_count > 0`. -/
def delete_task (st : TaskStore) (task_id : String) (opOk : Bool) :
    Bool × TaskStore :=
  match st.conn with
  | false => (false, st)
  | true =>
    if !opOk then (false, st)
    else
      (st.tasks.any (fun t => t.id = task_id),
       { st with tasks := st.tasks.eraseP (fun t => t.id = task_id) })

/-! ## The dispatcher inside `process_command` (main.py lines 305-376) -/

/-- The `action_result` dict: `status`, `message`, and the `task_id` key the
create branch adds (whose value may itself be the null id). -/
structure ActionResult where
  status : String
  message : String
  task_id : Option (Option String) := none
deriving DecidableEq, Repr

/-- main.py line 321: the initial `action_result` every request starts from. -/
def initialResult : ActionResult :=
  { status := "success", message := "Comando procesado." }

/-- main.py line 325: the result when `db_manager is None`. -/
def dbNoneResult : ActionResult :=
  { status := "error", message := "Error de base de datos: Conexión no establecida." }

/-- main.py line 374: the final `else` of the dispatch chain. -/
def catchAllResult : ActionResult :=
  { status := "error", message := "Acción no reconocida por el sistema." }

/-- Python `str()` of the id returned by `add_task` as interpolated in the
f-string of main.py line 335: `str(None) = "None"`, a present id prints
itself. -/
def optIdStr : Option String → String
  | none => "None"
  | some s => s

/-- main.py lines 326-336: the `create` branch. -/
def createBranch (st : TaskStore) (llm : LLMCommand) (now : String)
    (opOk : Bool) : ActionResult × Option TaskStore :=
  match pyTruthyStr llm.description with
  | none =>
    ({ status := "error", message := "Para crear una tarea, necesito una descripción." }, some st)
  | some d =>
    let r := add_task st d llm.start_date (llm.status.map statusStr) now opOk
    ({ initialResult with
       message := "Tarea '" ++ d ++ "' creada con ID: " ++ optIdStr r.1,
       task_id := some r.1 }, some r.2)

/-- main.py lines 338-341: the `read` branch (acknowledgement only). -/
def readBranch (st : TaskStore) : ActionResult × Option TaskStore :=
  ({ initialResult with message := "Listando todas las tareas." }, some st)

/-- main.py lines 343-358: the `update` branch. -/
def updateBranch (st : TaskStore) (llm : LLMCommand) (opOk : Bool) :
    ActionResult × Option TaskStore :=
  match pyTruthyStr llm.task_id with
  | none =>
    ({ status := "error", message := "Para actualizar una tarea, necesito el ID de la tarea." }, some st)
  | some tid =>
    if (pyTruthyStr llm.description).isNone && (pyTruthyStr llm.start_date).isNone
        && llm.status.isNone then
      ({ status := "error", message := "Para actualizar, necesito al menos una descripción, fecha o estado." }, some st)
    else
      let r := update_task st tid llm.description llm.start_date
        (llm.status.map statusStr) opOk
      if r.1 then
        ({ initialResult with message := "Tarea " ++ tid ++ " actualizada correctamente." }, some r.2)
      else
        ({ status := "error",
           message := "No se pudo actualizar la tarea " ++ tid ++ ". ¿El ID es correcto?" }, some r.2)

/-- main.py lines 360-368: the `delete` branch. -/
def deleteBranch (st : TaskStore) (llm : LLMCommand) (opOk : Bool) :
    ActionResult × Option TaskStore :=
  match pyTruthyStr llm.task_id with
  | none =>
    ({ status := "error", message := "Para eliminar una tarea, necesito el ID de la tarea." }, some st)
  | some tid =>
    let r := delete_task st tid opOk
    if r.1 then
      ({ initialResult with message := "Tarea " ++ tid ++ " eliminada correctamente." }, some r.2)
    else
      ({ status := "error",
         message := "No se pudo eliminar la tarea " ++ tid ++ ". ¿El ID es correcto?" }, some r.2)

/-- main.py lines 370-371: the `unknown` branch — `llm_response.message or
"No pude entender tu comando. ..."` (Python `or` falls through on a falsy
message). -/
def unknownBranch (st : TaskStore) (llm : LLMCommand) : ActionResult × Option TaskStore :=
  ({ status := "info",
     message :=
       match llm.message with
       | some m => if m = "" then "No pude entender tu comando. Por favor, sé más específico." else m
       | none => "No pude entender tu comando. Por favor, sé más específico." }, some st)

/-- main.py lines 320-374: the dispatch `if/elif` chain exactly as written,
including the final unreachable `else` (line 374). -/
def dispatch (llm : LLMCommand) (mgr : Option TaskStore) (now : String)
    (opOk : Bool) : ActionResult × Option TaskStore :=
  match mgr with
  | none => (dbNoneResult, none)
  | some st =>
    if llm.action = .create then createBranch st llm now opOk
    else if llm.action = .read then readBranch st
    else if llm.action = .update then updateBranch st llm opOk
    else if llm.action = .delete then deleteBranch st llm opOk
    else if llm.action = .unknown then unknownBranch st llm
    else (catchAllResult, some st)

/-- The same dispatch written as a total match on the five `action` values,
with no fallback branch: comparing it with `dispatch` shows the final `else`
of the chain unreachable. -/
def dispatchListed (llm : LLMCommand) (mgr : Option TaskStore) (now : String)
    (opOk : Bool) : ActionResult × Option TaskStore :=
  match mgr with
  | none => (dbNoneResult, none)
  | some st =>
    match llm.action with
    | .create => createBranch st llm now opOk
    | .read => readBranch st
    | .update => updateBranch st llm opOk
    | .delete => deleteBranch st llm opOk
    | .unknown => unknownBranch st llm

/-- The endpoint's observable outcome: an unhandled exception (HTTP 500, when
`data.get` is called on a non-dict body), the HTTP 400 of main.py line 315,
or the normal JSON response of line 376. -/
inductive CmdResponse where
  | raised
  | badRequest (detail : String)
  | ok (interpretation : LLMCommand) (result : ActionResult)
deriving DecidableEq, Repr

/-- main.py lines 305-376, `POST /command`: read `data.get('command')`,
reject every falsy value with HTTP 400, then interpret and dispatch. -/
def process_command (body : Json) (env : InterpEnv) (mgr : Option TaskStore)
    (now : String) (opOk : Bool) : CmdResponse × Option TaskStore :=
  match body with
  | .obj kvs =>
    let user_input := lookupLast kvs "command"
    match user_input with
    | none => (.badRequest "El campo 'command' es requerido.", mgr)
    | some v =>
      if pyFalsy v then (.badRequest "El campo 'command' es requerido.", mgr)
      else
        let llm := call_llm_for_command env
        let r := dispatch llm mgr now opOk
        (.ok llm r.1, r.2)
  | _ => (.raised, mgr)

/-! ## Theorems for the store claims -/

/-- A concrete one-task connected store used by witnesses. -/
def sampleTask : StoredTask :=
  { id := "0", description := "old", status := some "pending",
    created_at := .dt "2025-01-01T00:00:00" }

/-- A concrete connected store holding `sampleTask`. -/
def sampleStore : TaskStore :=
  { conn := true, tasks := [sampleTask], nextId := 1 }

/-- A concrete store whose single task carries the invalid stored status
`"weird"`. -/
def weirdTask : StoredTask :=
  { id := "0", description := "a", status := some "weird",
    created_at := .dt "2025-01-01T00:00:00" }

/-- The connected store holding `weirdTask`. -/
def weirdStore : TaskStore :=
  { conn := true, tasks := [weirdTask], nextId := 1 }

/-- A concrete disconnected store (`self.db is None`). -/
def downStore : TaskStore :=
  { conn := false, tasks := [sampleTask], nextId := 1 }

/-- Claim C2: for every `update_task` call supplying a (non-empty) status
value outside the four valid ones, the store rejects the entire update — it
returns `False` and leaves the stored state untouched, even when a
description or start date was supplied as well. -/
theorem c2_invalid_status_rejects_whole_update (st : TaskStore) (task_id : String)
    (description start_date : Option String) (s : String) (opOk : Bool)
    (hinv : s ∉ validStatuses) (hne : s ≠ "") :
    update_task st task_id description start_date (some s) opOk = (false, st) := by
  unfold update_task
  cases hc : st.conn
  · rfl
  · simp [pyTruthyStr, hne, hinv]

/-- Witness for C2: a concrete rejected update with a description supplied. -/
theorem c2_invalid_status_rejects_whole_update_witness :
    update_task sampleStore "0" (some "new description") none (some "terminado") true
      = (false, sampleStore) :=
  c2_invalid_status_rejects_whole_update _ _ _ _ _ _ (by decide) (by decide)

/-- Claim C7: `get_all_tasks` is a pure read-time view — the store comes back
unchanged and a second listing is identical — and the per-document view
`viewOf` repairs a missing or invalid status to `pending`, keeps a valid
status, and renders datetime timestamps through their ISO text. -/
theorem c7_listing_is_pure_readtime_view (st : TaskStore) (readOk : Bool) :
    (get_all_tasks st readOk).2 = st
    ∧ get_all_tasks ((get_all_tasks st readOk).2) readOk = get_all_tasks st readOk
    ∧ (st.conn = true → readOk = true → (get_all_tasks st readOk).1 = st.tasks.map viewOf)
    ∧ (∀ v ∈ (get_all_tasks st readOk).1, v.status ∈ validStatuses)
    ∧ (∀ t : StoredTask, ∀ s, t.status = some s → s ∈ validStatuses →
        (viewOf t).status = s)
    ∧ (∀ t : StoredTask, ∀ s, t.status = some s → s ∉ validStatuses →
        (viewOf t).status = "pending")
    ∧ (∀ t : StoredTask, t.status = none → (viewOf t).status = "pending")
    ∧ (∀ t : StoredTask, ∀ iso, t.created_at = StoredTime.dt iso →
        (viewOf t).created_at = iso) := by
  refine ⟨?_, ?_, ?_, ?_, ?_, ?_, ?_, ?_⟩
  · unfold get_all_tasks; cases st.conn <;> cases readOk <;> simp
  · unfold get_all_tasks; cases hc : st.conn <;> cases readOk <;> simp [hc]
  · intro h1 h2; simp [get_all_tasks, h1, h2]
  · intro v hv
    have hview : ∀ t : StoredTask, (viewOf t).status ∈ validStatuses := by
      intro t
      unfold viewOf
      cases h : t.status with
      | none => simp only [h]; decide
      | some s =>
        by_cases hs : s ∈ validStatuses
        · simp [h, hs]
        · simp only [h]
          rw [if_neg (by simpa using hs)]
          decide
    unfold get_all_tasks at hv
    cases hc : st.conn <;> rw [hc] at hv
    · simp at hv
    · cases readOk <;> simp at hv
      obtain ⟨t, _, ht⟩ := hv
      exact ht ▸ hview t
  · intro t s hst hval; simp [viewOf, hst, hval]
  · intro t s hst hval; simp [viewOf, hst, hval]
  · intro t hst; simp [viewOf, hst]
  · intro t iso hca; simp [viewOf, hca]

/-- Witness for C7: listing a concrete store whose task carries the invalid
stored status `weird` leaves the store unchanged; the view of that task is
repaired to `pending` while a valid stored status is kept. -/
theorem c7_listing_is_pure_readtime_view_witness :
    (get_all_tasks weirdStore true).2 = weirdStore
    ∧ (viewOf weirdTask).status = "pending"
    ∧ (viewOf sampleTask).status = "pending" :=
  ⟨(c7_listing_is_pure_readtime_view weirdStore true).1,
   (c7_listing_is_pure_readtime_view weirdStore true).2.2.2.2.2.1
     weirdTask "weird" rfl (by decide),
   (c7_listing_is_pure_readtime_view sampleStore true).2.2.2.2.1
     sampleTask "pending" rfl (by decide)⟩

/-- Claim C8: every store operation invoked while the connection handle is
absent returns its failure indicator (`None`, `[]`, `False`, `False`) with
the store untouched, for all argument values — the guard runs before any
other work (no argument, not even the exception-behaviour flags, can change
the outcome). -/
theorem c8_no_connection_all_ops_fail (st : TaskStore) (h : st.conn = false)
    (d now : String) (sd stt : Option String) (insertOk readOk opOk1 opOk2 : Bool)
    (tid1 tid2 : String) (ud usd ust : Option String) :
    add_task st d sd stt now insertOk = (none, st)
    ∧ get_all_tasks st readOk = ([], st)
    ∧ update_task st tid1 ud usd ust opOk1 = (false, st)
    ∧ delete_task st tid2 opOk2 = (false, st) := by
  refine ⟨?_, ?_, ?_, ?_⟩ <;>
    simp [add_task, get_all_tasks, update_task, delete_task, h]

/-- Witness for C8: the four operations on a concrete disconnected store. -/
theorem c8_no_connection_all_ops_fail_witness :
    add_task downStore "d" none (some "pending") "t" true = (none, downStore)
    ∧ get_all_tasks downStore true = ([], downStore)
    ∧ update_task downStore "0" (some "d") none none true = (false, downStore)
    ∧ delete_task downStore "0" true = (false, downStore) :=
  c8_no_connection_all_ops_fail downStore rfl "d" "t" none (some "pending")
    true true true true "0" "0" (some "d") none none

/-! ## Theorems for the dispatcher claims -/

/-- Claim C3 (code bug evidence): dispatching a create command that carries
no status against a connected empty store stores a record whose `status`
field is null (`none`), not the declared default `"pending"`.  The
dispatcher passes `status=llm_response.status` explicitly (main.py line 333),
so `None` overrides the `status: str = "pending"` default of `add_task`
(db.py line 35) and is written verbatim (db.py line 45), contradicting the
`\"Usar el status proporcionado o el default\"` comment and the `Task` model
default. -/
theorem c3_create_without_status_stores_null :
    ((dispatch { action := .create, description := some "comprar pan" }
        (some { conn := true, tasks := [], nextId := 0 })
        "2025-10-12T10:00:00" true).2.map
      (fun s => s.tasks.map (fun t => t.status))) = some [none]
    ∧ (none : Option String) ≠ some "pending" := by
  exact ⟨rfl, by decide⟩

/-- Claim C4: when a create command has a non-empty description and the
store-level create returns a null id, the dispatcher still reports status
`success`, embedding the null id (`None`) in the message, instead of a
distinct error. -/
theorem c4_null_id_create_reports_success (st : TaskStore) (llm : LLMCommand)
    (now : String) (opOk : Bool) (d : String)
    (ha : llm.action = .create) (hd : llm.description = some d) (hne : d ≠ "")
    (hfail : (add_task st d llm.start_date (llm.status.map statusStr) now opOk).1 = none) :
    (dispatch llm (some st) now opOk).1.status = "success"
    ∧ (dispatch llm (some st) now opOk).1.message
        = "Tarea '" ++ d ++ "' creada con ID: None"
    ∧ (dispatch llm (some st) now opOk).1.task_id = some none := by
  have hbranch : dispatch llm (some st) now opOk = createBranch st llm now opOk := by
    simp [dispatch, ha]
  rw [hbranch]
  unfold createBranch
  simp only [hd, pyTruthyStr, hne, if_neg]
  simp [hfail, optIdStr, initialResult, hne]
  rw [String.append_assoc]
  rfl

/-- Witness for C4: a create command against a disconnected store (so the
store-level create yields a null id). -/
theorem c4_null_id_create_reports_success_witness :
    (dispatch { action := .create, description := some "comprar pan" }
      (some downStore) "2025-10-12T10:00:00" true).1.status = "success"
    ∧ (dispatch { action := .create, description := some "comprar pan" }
      (some downStore) "2025-10-12T10:00:00" true).1.message
        = "Tarea 'comprar pan' creada con ID: None"
    ∧ (dispatch { action := .create, description := some "comprar pan" }
      (some downStore) "2025-10-12T10:00:00" true).1.task_id = some none :=
  c4_null_id_create_reports_success downStore _ "2025-10-12T10:00:00" true
    "comprar pan" rfl rfl (by decide) rfl

/-- Claim C9: `POST /command` answers HTTP 400 whenever the `command` key is
absent from the JSON body or bound to any falsy value (empty string
included); no interpreter or store interaction takes place — the response
does not depend on the interpreter environment or the store. -/
theorem c9_falsy_command_rejected_400 (kvs : List (String × Json))
    (env : InterpEnv) (mgr : Option TaskStore) (now : String) (opOk : Bool)
    (h : lookupLast kvs "command" = none
      ∨ ∃ v, lookupLast kvs "command" = some v ∧ pyFalsy v = true) :
    process_command (.obj kvs) env mgr now opOk
      = (.badRequest "El campo 'command' es requerido.", mgr) := by
  unfold process_command
  rcases h with h | ⟨v, hv, hf⟩
  · simp [h]
  · simp [hv, hf]

/-- Witness for C9: a body whose `command` is the empty string. -/
theorem c9_falsy_command_rejected_400_witness :
    process_command (.obj [("command", .str "")])
      { apiKey := "k", channel := .otherError, loads := fun _ => none }
      (some sampleStore) "t" true
      = (.badRequest "El campo 'command' es requerido.", some sampleStore) :=
  c9_falsy_command_rejected_400 _ _ _ _ _ (Or.inr ⟨.str "", rfl, rfl⟩)

/-- Claim C10: the final catch-all branch of the dispatch chain
(`Acción no reconocida por el sistema`, main.py line 374) is unreachable:
the chain computes the same result as `dispatchListed`, the same dispatch
written as a total match over the five `action` values with no fallback
branch at all. -/
theorem c10_catch_all_branch_unreachable (llm : LLMCommand)
    (mgr : Option TaskStore) (now : String) (opOk : Bool) :
    dispatch llm mgr now opOk = dispatchListed llm mgr now opOk := by
  cases mgr with
  | none => rfl
  | some st => cases h : llm.action <;> simp [dispatch, dispatchListed, h]

/-! ## Theorems for the interpreter claims -/

/-- The success path of the interpreter: configured key, a decoded response
body containing a generated text, a parse into a JSON object whose (cleaned)
`action` is one of the five permitted values, and a Pydantic validation that
succeeds, whose command is the returned one. -/
def interpSuccess (env : InterpEnv) : Prop :=
  env.apiKey ≠ "" ∧
  ∃ body raw kvs av cmd,
    env.channel = .success body ∧
    extractRawText body = .text raw ∧
    env.loads (extractJsonBody raw) = some (.obj kvs) ∧
    lookupLast (cleanKeys kvs) "action" = some av ∧
    isValidActionJson av = true ∧
    buildCommand (cleanKeys kvs) = .ok cmd ∧
    call_llm_for_command env = cmd

/-- Case analysis of `handleParsed`: either it is on a failure path and
returns an `unknown` command with a message, or the parsed value is an
object with a valid action that Pydantic-validates, and that command is
returned. -/
theorem handleParsed_cases (parsed : Json) :
    ((handleParsed parsed).action = .unknown
      ∧ ((handleParsed parsed).message).isSome = true)
    ∨ ∃ kvs av cmd, parsed = .obj kvs
        ∧ lookupLast (cleanKeys kvs) "action" = some av
        ∧ isValidActionJson av = true
        ∧ buildCommand (cleanKeys kvs) = .ok cmd
        ∧ handleParsed parsed = cmd := by
  cases parsed with
  | obj kvs =>
    cases hla : lookupLast (cleanKeys kvs) "action" with
    | none => left; simp [handleParsed, hla, mkUnknown]
    | some av =>
      cases av with
      | null => left; simp [handleParsed, hla, mkUnknown]
      | str s =>
        by_cases hv : isValidActionJson (.str s) = true
        · cases hbc : buildCommand (cleanKeys kvs) with
          | ok cmd =>
            right
            exact ⟨kvs, .str s, cmd, rfl, hla, hv, hbc, by simp [handleParsed, hla, hv, hbc]⟩
          | error e => left; simp [handleParsed, hla, hv, hbc, mkUnknown]
        · left
          simp only [Bool.not_eq_true] at hv
          simp [handleParsed, hla, hv, mkUnknown]
      | bool b => left; simp [handleParsed, hla, isValidActionJson, mkUnknown]
      | num n => left; simp [handleParsed, hla, isValidActionJson, mkUnknown]
      | arr xs => left; simp [handleParsed, hla, isValidActionJson, mkUnknown]
      | obj f => left; simp [handleParsed, hla, isValidActionJson, mkUnknown]
  | null => left; simp [handleParsed, mkUnknown]
  | bool b => left; simp [handleParsed, mkUnknown]
  | num n => left; simp [handleParsed, mkUnknown]
  | str s => left; simp [handleParsed, mkUnknown]
  | arr xs => left; simp [handleParsed, mkUnknown]

/-- Claim C1: the interpreter is total at its boundary — for every API-key
value and every behaviour of the LLM channel (HTTP status error, transport
or decoding exception, malformed envelope, unparseable JSON, schema-violating
fields), `call_llm_for_command` either completes the full success path or
returns a Command with `action = unknown` carrying a message; no exception
propagates (all raising places are modelled by explicit fallback results). -/
theorem c1_interpreter_never_fails_outward (env : InterpEnv) :
    ((call_llm_for_command env).action = ActionType.unknown
      ∧ ((call_llm_for_command env).message).isSome = true)
    ∨ interpSuccess env := by
  by_cases hk : env.apiKey = ""
  · left; simp [call_llm_for_command, hk, mkUnknown]
  · cases hc : env.channel with
    | httpError code => left; simp [call_llm_for_command, hk, hc, mkUnknown]
    | otherError => left; simp [call_llm_for_command, hk, hc, mkUnknown]
    | success body =>
      cases ht : extractRawText body with
      | raised => left; simp [call_llm_for_command, hk, hc, ht, mkUnknown]
      | shapeMissing => left; simp [call_llm_for_command, hk, hc, ht, mkUnknown]
      | text raw =>
        have hcall : call_llm_for_command env = handleRawText env.loads raw := by
          simp [call_llm_for_command, hk, hc, ht]
        cases hl : env.loads (extractJsonBody raw) with
        | none => left; rw [hcall]; simp [handleRawText, hl, mkUnknown]
        | some parsed =>
          have h2 : call_llm_for_command env = handleParsed parsed := by
            rw [hcall]; simp [handleRawText, hl]
          rcases handleParsed_cases parsed with ⟨hu, hm⟩ | ⟨kvs, av, cmd, hp, hla, hva, hbc, hres⟩
          · left; rw [h2]; exact ⟨hu, hm⟩
          · right
            refine ⟨hk, body, raw, kvs, av, cmd, hc, ht, ?_, hla, hva, hbc, by rw [h2, hres]⟩
            rw [hl, hp]

/-- Claim C6: on the path where a JSON object was parsed and key-sanitized,
the interpreter resolves a missing or null `action` to `unknown` with the
clarification-request message, and a non-null `action` value outside the
five permitted ones to `unknown` with a message naming the invalid value. -/
theorem c6_action_checks (env : InterpEnv) (body : Json) (raw : String)
    (kvs : List (String × Json))
    (hk : env.apiKey ≠ "") (hc : env.channel = .success body)
    (ht : extractRawText body = .text raw)
    (hl : env.loads (extractJsonBody raw) = some (.obj kvs)) :
    ((lookupLast (cleanKeys kvs) "action" = none
        ∨ lookupLast (cleanKeys kvs) "action" = some .null) →
      call_llm_for_command env
        = mkUnknown "No pude determinar la acción del LLM. Por favor, sé más específico.")
    ∧ (∀ av, lookupLast (cleanKeys kvs) "action" = some av → av ≠ .null →
        isValidActionJson av = false →
      call_llm_for_command env
        = mkUnknown ("La acción '" ++ pyStr av
            ++ "' no es válida. Por favor, sé más específico.")) := by
  have h2 : call_llm_for_command env = handleParsed (.obj kvs) := by
    simp [call_llm_for_command, hk, hc, ht, handleRawText, hl]
  constructor
  · intro h
    rw [h2]
    rcases h with h | h
    · simp [handleParsed, h]
    · simp [handleParsed, h]
  · intro av hla hnn hinv
    rw [h2]
    cases av with
    | null => exact absurd rfl hnn
    | str s => simp [handleParsed, hla, hinv]
    | bool b => simp [handleParsed, hla, hinv]
    | num n => simp [handleParsed, hla, hinv]
    | arr xs => simp [handleParsed, hla, hinv]
    | obj f => simp [handleParsed, hla, hinv]

/-- A concrete response body whose envelope yields the generated text
`payload`. -/
def payloadBody : Json :=
  .obj [("candidates", .arr [.obj [("content",
    .obj [("parts", .arr [.obj [("text", .str "payload")]])])]])]

/-- An environment whose parsed object has no `action` key at all. -/
def envNoAction : InterpEnv :=
  { apiKey := "k", channel := .success payloadBody,
    loads := fun s =>
      if s = "payload" then some (.obj [("message", .str "hola")]) else none }

/-- An environment whose parsed object carries the invalid action `fly`. -/
def envBadAction : InterpEnv :=
  { apiKey := "k", channel := .success payloadBody,
    loads := fun s =>
      if s = "payload" then some (.obj [("action", .str "fly")]) else none }

/-- Witness for C6: the two concrete environments above, each resolved
exactly as the claim states. -/
theorem c6_action_checks_witness :
    call_llm_for_command envNoAction
      = mkUnknown "No pude determinar la acción del LLM. Por favor, sé más específico."
    ∧ call_llm_for_command envBadAction
      = mkUnknown ("La acción '" ++ pyStr (.str "fly")
          ++ "' no es válida. Por favor, sé más específico.") :=
  ⟨(c6_action_checks envNoAction payloadBody "payload" [("message", .str "hola")]
      (by decide) rfl rfl rfl).1 (Or.inl rfl),
   (c6_action_checks envBadAction payloadBody "payload" [("action", .str "fly")]
      (by decide) rfl rfl rfl).2 (.str "fly") rfl
      (fun h => Json.noConfusion h) rfl⟩

/-! ## Theorems for the fence-extraction claim -/

/-- Shifting an occurrence across a cons cell. -/
theorem occursAt_cons_succ (pat : List Char) (c : Char) (rest : List Char) (i : Nat) :
    occursAt pat (c :: rest) (i + 1) = occursAt pat rest i := by
  simp [occursAt]

/-- Soundness of the search: a found index is an occurrence. -/
theorem findSub_occurs (pat : List Char) :
    ∀ (s : List Char) (i : Nat), findSub pat s = some i → occursAt pat s i = true := by
  intro s
  induction s with
  | nil =>
    intro i h
    unfold findSub at h
    by_cases hp : pat.isPrefixOf ([] : List Char) = true
    · rw [if_pos hp] at h; cases h; simpa [occursAt] using hp
    · rw [if_neg hp] at h; cases h
  | cons c rest ih =>
    intro i h
    unfold findSub at h
    by_cases hp : pat.isPrefixOf (c :: rest) = true
    · rw [if_pos hp] at h; cases h; simpa [occursAt] using hp
    · rw [if_neg hp] at h
      cases hf : findSub pat rest with
      | none => rw [hf] at h; cases h
      | some j =>
        rw [hf] at h
        simp only [Option.map_some'] at h
        cases h
        rw [occursAt_cons_succ]
        exact ih j hf

/-- Minimality of the search: nothing occurs before the found index. -/
theorem findSub_min (pat : List Char) :
    ∀ (s : List Char) (i : Nat), findSub pat s = some i →
      ∀ j, j < i → occursAt pat s j = false := by
  intro s
  induction s with
  | nil =>
    intro i h j hj
    unfold findSub at h
    by_cases hp : pat.isPrefixOf ([] : List Char) = true
    · rw [if_pos hp] at h; cases h; exact absurd hj (Nat.not_lt_zero j)
    · rw [if_neg hp] at h; cases h
  | cons c rest ih =>
    intro i h j hj
    unfold findSub at h
    by_cases hp : pat.isPrefixOf (c :: rest) = true
    · rw [if_pos hp] at h; cases h; exact absurd hj (Nat.not_lt_zero j)
    · rw [if_neg hp] at h
      cases hf : findSub pat rest with
      | none => rw [hf] at h; cases h
      | some k =>
        rw [hf] at h
        simp only [Option.map_some'] at h
        cases h
        cases j with
        | zero =>
          simp only [occursAt, List.drop_zero]
          exact Bool.not_eq_true _ ▸ (by simpa using hp)
        | succ j' =>
          rw [occursAt_cons_succ]
          exact ih k hf j' (by omega)

/-- Completeness of the search: an occurrence guarantees a found index no
later than it. -/
theorem occurs_findSub (pat : List Char) :
    ∀ (s : List Char) (i : Nat), occursAt pat s i = true →
      ∃ j, j ≤ i ∧ findSub pat s = some j := by
  intro s
  induction s with
  | nil =>
    intro i h
    have hp : pat.isPrefixOf ([] : List Char) = true := by
      simpa [occursAt] using h
    exact ⟨0, Nat.zero_le i, by unfold findSub; rw [if_pos hp]⟩
  | cons c rest ih =>
    intro i h
    by_cases hp : pat.isPrefixOf (c :: rest) = true
    · exact ⟨0, Nat.zero_le i, by unfold findSub; rw [if_pos hp]⟩
    · cases i with
      | zero => exact absurd (by simpa [occursAt] using h) hp
      | succ i' =>
        rw [occursAt_cons_succ] at h
        obtain ⟨j, hji, hfs⟩ := ih i' h
        exact ⟨j + 1, by omega, by unfold findSub; rw [if_neg hp, hfs]; rfl⟩

/-- The search finds exactly the first occurrence. -/
theorem findSub_first (pat s : List Char) (i : Nat)
    (h1 : occursAt pat s i = true) (h2 : ∀ j, j < i → occursAt pat s j = false) :
    findSub pat s = some i := by
  obtain ⟨j, hji, hfs⟩ := occurs_findSub pat s i h1
  rcases Nat.lt_or_ge j i with hlt | hge
  · have hocc := findSub_occurs pat s j hfs
    rw [h2 j hlt] at hocc
    cases hocc
  · rwa [Nat.le_antisymm hji hge] at hfs

/-- A non-empty pattern occurs only at indices inside the text. -/
theorem occursAt_lt_length (pat s : List Char) (i : Nat) (hp : pat ≠ [])
    (h : occursAt pat s i = true) : i < s.length := by
  by_contra hc
  push_neg at hc
  rw [occursAt, List.drop_eq_nil_of_le hc] at h
  cases pat with
  | nil => exact hp rfl
  | cons a as => simp [List.isPrefixOf] at h

/-- Occurrences in a suffix are shifted occurrences in the whole text. -/
theorem occursAt_drop (pat s : List Char) (m k : Nat) :
    occursAt pat (s.drop m) k = occursAt pat s (m + k) := by
  rw [occursAt, occursAt, List.drop_drop]

/-- A pattern occurs at the boundary of the prefix it follows. -/
theorem occursAt_append_self (pre pat post : List Char) :
    occursAt pat (pre ++ (pat ++ post)) pre.length = true := by
  rw [occursAt, List.drop_left pre (pat ++ post)]
  exact List.isPrefixOf_iff_prefix.mpr (List.prefix_append pat post)

/-- Claim C5: when the raw model text decomposes around a first `³³³json`
marker and the first closing `³³³` marker after it (³ = backtick), the
extracted JSON body is exactly the in-between content, trimmed, ignoring the
surrounding prose; when no such marker pair exists anywhere, the JSON body is
the whole trimmed text. -/
theorem c5_fenced_json_extraction :
    (∀ pre mid post : List Char,
      (∀ i, i < pre.length →
        occursAt fenceOpen (pre ++ (fenceOpen ++ (mid ++ (fenceClose ++ post)))) i = false) →
      (∀ j, j < mid.length →
        occursAt fenceClose (mid ++ (fenceClose ++ post)) j = false) →
      extractJsonBodyL (pre ++ (fenceOpen ++ (mid ++ (fenceClose ++ post))))
        = pyStrip mid)
    ∧ (∀ raw : List Char,
      (∀ i, i ≤ raw.length → ∀ j, j ≤ raw.length →
        ¬(occursAt fenceOpen raw i = true ∧ occursAt fenceClose raw j = true
          ∧ i + fenceOpen.length ≤ j)) →
      extractJsonBodyL raw = pyStrip raw) := by
  constructor
  · intro pre mid post hpre hmid
    have h1 : occursAt fenceOpen (pre ++ (fenceOpen ++ (mid ++ (fenceClose ++ post))))
        pre.length = true :=
      occursAt_append_self pre fenceOpen (mid ++ (fenceClose ++ post))
    have hfs1 : findSub fenceOpen (pre ++ (fenceOpen ++ (mid ++ (fenceClose ++ post))))
        = some pre.length :=
      findSub_first _ _ _ h1 hpre
    have hdrop : (pre ++ (fenceOpen ++ (mid ++ (fenceClose ++ post)))).drop
        (pre.length + fenceOpen.length) = mid ++ (fenceClose ++ post) := by
      rw [← List.append_assoc, ← List.length_append pre fenceOpen]
      exact List.drop_left _ _
    have hfs2 : findSub fenceClose ((pre ++ (fenceOpen ++ (mid ++ (fenceClose ++ post)))).drop
        (pre.length + fenceOpen.length)) = some mid.length := by
      rw [hdrop]
      exact findSub_first _ _ _ (occursAt_append_self mid fenceClose post) hmid
    have htake : ((pre ++ (fenceOpen ++ (mid ++ (fenceClose ++ post)))).drop
        (pre.length + fenceOpen.length)).take mid.length = mid := by
      rw [hdrop]
      exact List.take_left _ _
    simp only [extractJsonBodyL, hfs1, hfs2, htake]
  · intro raw hno
    cases hfo : findSub fenceOpen raw with
    | none => simp only [extractJsonBodyL, hfo]
    | some i =>
      cases hfc : findSub fenceClose (raw.drop (i + fenceOpen.length)) with
      | none => simp only [extractJsonBodyL, hfo, hfc]
      | some k =>
        exfalso
        have h1 : occursAt fenceOpen raw i = true := findSub_occurs _ _ _ hfo
        have h2 : occursAt fenceClose raw (i + fenceOpen.length + k) = true := by
          have := findSub_occurs _ _ _ hfc
          rwa [occursAt_drop] at this
        have hi : i < raw.length := occursAt_lt_length _ _ _ (by decide) h1
        have hj : i + fenceOpen.length + k < raw.length :=
          occursAt_lt_length _ _ _ (by decide) h2
        exact hno i (Nat.le_of_lt hi) (i + fenceOpen.length + k) (Nat.le_of_lt hj)
          ⟨h1, h2, by omega⟩

/-- Witness for C5: a fenced payload surrounded by prose extracts to exactly
the trimmed in-between content, and an unfenced text extracts to its own
trimmed form. -/
theorem c5_fenced_json_extraction_witness :
    extractJsonBodyL ("intro ".toList
        ++ (fenceOpen ++ ("\n[1, 2]\n".toList ++ (fenceClose ++ " outro".toList))))
      = pyStrip "\n[1, 2]\n".toList
    ∧ extractJsonBodyL "plain text".toList = pyStrip "plain text".toList :=
  ⟨c5_fenced_json_extraction.1 _ _ _ (by decide) (by decide),
   c5_fenced_json_extraction.2 _ (by decide)⟩

end TaskManager
